import Mathlib

/-!
Verification of the folder-color style synchronizer of the
obsidian-colorful-folder-tabs plugin.

The development shallowly embeds the plugin (main.ts, types.ts,
settings-tab.ts) into Lean. The live DOM of the file-explorer panes is
modelled as a `Dom` value: a list of explorer containers, each holding the
folder nodes found by the selector `.tree-item.nav-folder .nav-folder-title`,
plus the two document-level CSS variables `--fc-main-folder-weight` and
`--fc-sub-folder-weight` that `applyAllStyles` writes on
`document.documentElement`. Each folder node couples the title element with
its enclosing `.tree-item.nav-folder` item (the selector guarantees the
ancestor exists), recording the raw text content and every presentation
attribute the plugin ever touches: the `fc-dot-enabled` class, the
`fc-colored-folder` class, and the inline `--tab-color` and `--text-color`
properties. The plugin object state (`this.settings`, `this.observer`,
`this.explorerObservers`) is the `PluginState` structure; methods become
functions from state and DOM to state and DOM.
-/

namespace FolderColor

/-- Embeds interface `FolderMapping` of types.ts: a user mapping from a
folder name to a background color, a text color, and an optional flag that
enables the text color. -/
structure FolderMapping where
  name : String
  color : String
  textColor : String
  useTextColor : Option Bool
  deriving DecidableEq, Repr

/-- Embeds interface `FolderColorSettings` of types.ts. The two font
weights are optional numbers. -/
structure FolderColorSettings where
  enabled : Bool
  mappings : List FolderMapping
  showDot : Bool
  subFolderFontWeight : Option Int
  mainFolderFontWeight : Option Int
  deriving DecidableEq, Repr

/-- A folder node of the live DOM: the `.nav-folder-title` element paired
with its enclosing `.tree-item.nav-folder` item. `text` is the raw
`textContent` of the title element; `isTopLevel` is the host-determined
nesting depth (top-level versus nested); the remaining fields are the
presentation attributes the plugin reads or writes: the `fc-dot-enabled`
class on the title, the `fc-colored-folder` class on the folder item, the
inline `--tab-color` property on the folder item and the inline
`--text-color` property on the title. -/
structure FolderNode where
  text : String
  isTopLevel : Bool
  dotEnabled : Bool
  coloredFolder : Bool
  tabColor : Option String
  textColor : Option String
  deriving DecidableEq, Repr

/-- One explorer pane, i.e. one element matching
`.workspace-leaf-content[data-type="file-explorer"]`. `hasNavFilesContainer`
records whether a `.nav-files-container` child exists (the element
`observeExplorerContainer` scopes its observer to). -/
structure Explorer where
  hasNavFilesContainer : Bool
  nodes : List FolderNode
  deriving DecidableEq, Repr

/-- The document: whether a `.workspace` root exists, the open explorer
panes, and the two document-level CSS variables
`--fc-main-folder-weight` and `--fc-sub-folder-weight` set on
`document.documentElement` by `applyAllStyles` (none = variable not set). -/
structure Dom where
  hasWorkspaceRoot : Bool
  explorers : List Explorer
  mainWeightVar : Option String
  subWeightVar : Option String
  deriving DecidableEq, Repr

/-- The mutable fields of the plugin object: `this.settings`,
`this.observer` (here: whether the workspace-level MutationObserver is
connected) and `this.explorerObservers` (here: the indices of the explorer
containers that own a connected scoped MutationObserver). -/
structure PluginState where
  settings : FolderColorSettings
  workspaceObserver : Bool
  explorerObservers : List Nat
  deriving DecidableEq, Repr

/-- The JavaScript `String.prototype.trim` used on the text content of a
title element (main.ts line 125): drop all leading and all trailing
whitespace characters. (Defined by structural recursion over the
character list so that concrete instances evaluate in the kernel.) -/
def jsTrim (s : String) : String :=
  String.mk (((s.data.dropWhile Char.isWhitespace).reverse.dropWhile Char.isWhitespace).reverse)

/-- The per-node body of `applyMappingsToDOM` (main.ts lines 124-146):
trim the text content, find the first mapping whose `name` equals it; on a
match set `--tab-color` on the folder item, set or remove `--text-color`
on the title according to `useTextColor`, add `fc-colored-folder`, and add
`fc-dot-enabled` when `showDot`; on no match remove `--tab-color`,
`--text-color`, `fc-colored-folder` and `fc-dot-enabled`. -/
def applyMappingsToNode (mappings : List FolderMapping) (showDot : Bool)
    (n : FolderNode) : FolderNode :=
  let text := jsTrim n.text
  match mappings.find? (fun m => m.name == text) with
  | some mapping =>
      { n with
        tabColor := some mapping.color
        textColor := if mapping.useTextColor = some true
                     then some mapping.textColor else none
        coloredFolder := true
        dotEnabled := if showDot then true else n.dotEnabled }
  | none =>
      { n with
        tabColor := none
        textColor := none
        coloredFolder := false
        dotEnabled := false }

/-- Embeds `applyMappingsToDOM` (main.ts lines 116-147) on one explorer
container: if the mappings list is empty return at once, otherwise rewrite
every folder node with `applyMappingsToNode`. -/
def applyMappingsToDOM (s : FolderColorSettings) (e : Explorer) : Explorer :=
  if s.mappings.isEmpty then e
  else { e with nodes := e.nodes.map (applyMappingsToNode s.mappings s.showDot) }

/-- The per-node body of `applyStructuralStyles` (main.ts lines 93-96):
add the `fc-dot-enabled` class when `showDot` is true, remove it
otherwise. -/
def structuralNode (showDot : Bool) (n : FolderNode) : FolderNode :=
  { n with dotEnabled := showDot }

/-- Embeds `applyStructuralStyles` (main.ts lines 83-98): for every folder
title in every explorer, set the dot class from `showDot`. -/
def applyStructuralStyles (s : FolderColorSettings) (d : Dom) : Dom :=
  { d with explorers :=
      d.explorers.map (fun e => { e with nodes := e.nodes.map (structuralNode s.showDot) }) }

/-- Embeds `applyMappingsToAllExplorers` (main.ts lines 101-106). -/
def applyMappingsToAllExplorers (s : FolderColorSettings) (d : Dom) : Dom :=
  { d with explorers := d.explorers.map (applyMappingsToDOM s) }

/-- Embeds `observeExplorerContainer` (main.ts lines 194-204): skip a
container that is already observed; otherwise, if it holds a
`.nav-files-container`, connect a scoped observer for it. -/
def observeExplorerContainer (d : Dom) (st : PluginState) (i : Nat) : PluginState :=
  if i ∈ st.explorerObservers then st
  else
    match d.explorers.get? i with
    | some e =>
        if e.hasNavFilesContainer then
          { st with explorerObservers := st.explorerObservers ++ [i] }
        else st
    | none => st

/-- Embeds `setupObserversForExplorers` (main.ts lines 156-185):
disconnect and recreate the workspace-level observer (connected when a
`.workspace` root exists), then ensure every existing explorer container
is observed. -/
def setupObserversForExplorers (st : PluginState) (d : Dom) : PluginState :=
  let st1 := { st with workspaceObserver := d.hasWorkspaceRoot }
  (List.range d.explorers.length).foldl (observeExplorerContainer d) st1

/-- The DOM effect of `applyAllStyles` (main.ts lines 54-63): write the two
document-level font-weight variables (falling back to 700 and 500 when the
settings fields are absent), then run the structural pass and the mapping
pass over all explorers. -/
def applyAllDom (s : FolderColorSettings) (d : Dom) : Dom :=
  let mainWeight := s.mainFolderFontWeight.getD 700
  let subWeight := s.subFolderFontWeight.getD 500
  let d1 : Dom := { d with
    mainWeightVar := some (toString mainWeight)
    subWeightVar := some (toString subWeight) }
  applyMappingsToAllExplorers s (applyStructuralStyles s d1)

/-- Embeds the public method `applyAllStyles` (main.ts lines 54-63): the
DOM effect of `applyAllDom` followed by `setupObserversForExplorers`. Note
that the body never reads `settings.enabled`. -/
def applyAllStyles (st : PluginState) (d : Dom) : PluginState × Dom :=
  let d3 := applyAllDom st.settings d
  (setupObserversForExplorers st d3, d3)

/-- The per-node body of `removeStyles` (main.ts lines 67-73): remove the
`fc-dot-enabled` and `fc-colored-folder` classes and the inline
`--tab-color` and `--text-color` properties. -/
def clearNode (n : FolderNode) : FolderNode :=
  { n with dotEnabled := false, coloredFolder := false, tabColor := none, textColor := none }

/-- Embeds the public method `removeStyles` (main.ts lines 66-80): clear
the four node-level attributes on every folder node in the document,
disconnect the workspace observer and disconnect and forget every scoped
explorer observer. The two document-level font-weight variables are not
touched. -/
def removeStyles (st : PluginState) (d : Dom) : PluginState × Dom :=
  ({ st with workspaceObserver := false, explorerObservers := [] },
   { d with explorers :=
      d.explorers.map (fun e => { e with nodes := e.nodes.map clearNode }) })

/-- Embeds the onChange handler of the "Enable folder colors" toggle
(settings-tab.ts lines 57-63): store the new value of `enabled`, then call
`applyAllStyles` when it is true and `removeStyles` when it is false. The
toggle command (main.ts line 36) dispatches identically after flipping the
flag. -/
def enableToggleOnChange (v : Bool) (st : PluginState) (d : Dom) : PluginState × Dom :=
  let st1 := { st with settings := { st.settings with enabled := v } }
  if v then applyAllStyles st1 d else removeStyles st1 d

/-- The combined effect of one `applyAllStyles` run on a single folder
node: the structural pass writes the dot class, then the mapping pass
rewrites the node unless the mappings list is empty. -/
def styledNode (s : FolderColorSettings) (n : FolderNode) : FolderNode :=
  if s.mappings.isEmpty then structuralNode s.showDot n
  else applyMappingsToNode s.mappings s.showDot (structuralNode s.showDot n)

/-- Modelled from the spec: the stylesheet styles.css is imported by
main.ts but its content is not among the sources. Per the spec, it renders
the document-level variable `--fc-main-folder-weight` as the effective
font weight of top-level folder titles and `--fc-sub-folder-weight` as
that of nested folder titles. -/
def effectiveWeightVar (d : Dom) (topLevel : Bool) : Option String :=
  if topLevel then d.mainWeightVar else d.subWeightVar

/-- A freshly rendered folder node added by the host: raw text content and
nesting depth, with no plugin attribute set yet. -/
def mkFolderNode (raw : String) (top : Bool) : FolderNode :=
  { text := raw, isTopLevel := top, dotEnabled := false, coloredFolder := false,
    tabColor := none, textColor := none }

/-- The host appends a freshly rendered folder node to explorer `i`
(outside the control of the plugin). -/
def hostAddFolderNode (d : Dom) (i : Nat) (n : FolderNode) : Dom :=
  match d.explorers.get? i with
  | some e => { d with explorers := d.explorers.set i { e with nodes := e.nodes ++ [n] } }
  | none => d

/-- Delivery of one MutationObserver notification for explorer `i`: when
the container is observed, its callback (main.ts line 200) runs
`applyMappingsToDOM` on the container at once, with no debounce timer.
The second component counts how many times the mapping pass ran. -/
def notifyExplorer (st : PluginState) (d : Dom) (i : Nat) : Dom × Nat :=
  if i ∈ st.explorerObservers then
    match d.explorers.get? i with
    | some e => ({ d with explorers := d.explorers.set i (applyMappingsToDOM st.settings e) }, 1)
    | none => (d, 1)
  else (d, 0)

/-- Delivery of a burst of `k` consecutive notifications for explorer `i`,
returning the final DOM and the total number of mapping-pass runs. -/
def deliverBurst (st : PluginState) (i : Nat) : Dom → Nat → Dom × Nat
  | d, 0 => (d, 0)
  | d, k + 1 =>
      let r1 := notifyExplorer st d i
      let r2 := deliverBurst st i r1.1 k
      (r2.1, r1.2 + r2.2)

/-! ## Basic lemmas about the embedding -/

/-- The mapping pass never changes the text content of a node. -/
theorem applyMappingsToNode_text (mappings : List FolderMapping) (showDot : Bool)
    (n : FolderNode) : (applyMappingsToNode mappings showDot n).text = n.text := by
  unfold applyMappingsToNode
  rcases h : List.find? (fun m => m.name == jsTrim n.text) mappings with _ | m <;> simp [h]

/-- The mapping pass never changes the nesting depth of a node. -/
theorem applyMappingsToNode_top (mappings : List FolderMapping) (showDot : Bool)
    (n : FolderNode) : (applyMappingsToNode mappings showDot n).isTopLevel = n.isTopLevel := by
  unfold applyMappingsToNode
  rcases h : List.find? (fun m => m.name == jsTrim n.text) mappings with _ | m <;> simp [h]

/-- A styled node keeps its text content. -/
theorem styledNode_text (s : FolderColorSettings) (n : FolderNode) :
    (styledNode s n).text = n.text := by
  unfold styledNode
  by_cases h : s.mappings.isEmpty
  · simp [h, structuralNode]
  · simp [h, applyMappingsToNode_text, structuralNode]

/-- A styled node keeps its nesting depth. -/
theorem styledNode_top (s : FolderColorSettings) (n : FolderNode) :
    (styledNode s n).isTopLevel = n.isTopLevel := by
  unfold styledNode
  by_cases h : s.mappings.isEmpty
  · simp [h, structuralNode]
  · simp [h, applyMappingsToNode_top, structuralNode]

/-- The explorer list produced by one full `applyAllStyles` run is the
input explorer list with every node rewritten by `styledNode`. -/
theorem applyAllDom_explorers (s : FolderColorSettings) (d : Dom) :
    (applyAllDom s d).explorers =
      d.explorers.map (fun e => { e with nodes := e.nodes.map (styledNode s) }) := by
  unfold applyAllDom applyMappingsToAllExplorers applyStructuralStyles applyMappingsToDOM
  by_cases h : s.mappings.isEmpty <;>
    simp [h, List.map_map, Function.comp, styledNode]

theorem applyAllDom_mainWeightVar (s : FolderColorSettings) (d : Dom) :
    (applyAllDom s d).mainWeightVar = some (toString (s.mainFolderFontWeight.getD 700)) := by
  unfold applyAllDom applyMappingsToAllExplorers applyStructuralStyles
  rfl

theorem applyAllDom_subWeightVar (s : FolderColorSettings) (d : Dom) :
    (applyAllDom s d).subWeightVar = some (toString (s.subFolderFontWeight.getD 500)) := by
  unfold applyAllDom applyMappingsToAllExplorers applyStructuralStyles
  rfl

theorem applyAllDom_hasWorkspaceRoot (s : FolderColorSettings) (d : Dom) :
    (applyAllDom s d).hasWorkspaceRoot = d.hasWorkspaceRoot := by
  unfold applyAllDom applyMappingsToAllExplorers applyStructuralStyles
  rfl

/-- Function `observeExplorerContainer` never touches the settings. -/
theorem observeExplorerContainer_settings (d : Dom) (st : PluginState) (i : Nat) :
    (observeExplorerContainer d st i).settings = st.settings := by
  unfold observeExplorerContainer
  split
  · rfl
  · split
    · split <;> rfl
    · rfl

/-- A fold of `observeExplorerContainer` never touches the settings. -/
theorem foldl_observe_settings (d : Dom) :
    ∀ (l : List Nat) (st : PluginState),
      ((l.foldl (observeExplorerContainer d) st).settings = st.settings)
  | [], st => rfl
  | i :: l, st => by
      rw [List.foldl_cons, foldl_observe_settings d l]
      exact observeExplorerContainer_settings d st i

/-- Function `setupObserversForExplorers` never touches the settings. -/
theorem setupObserversForExplorers_settings (st : PluginState) (d : Dom) :
    (setupObserversForExplorers st d).settings = st.settings := by
  unfold setupObserversForExplorers
  exact foldl_observe_settings d _ _

/-- Function `applyAllStyles` never touches the settings. -/
theorem applyAllStyles_settings (st : PluginState) (d : Dom) :
    (applyAllStyles st d).1.settings = st.settings :=
  setupObserversForExplorers_settings st _

/-- Running the structural pass and the mapping pass a second time on an
already styled node changes nothing. -/
theorem mapStruct_idem (mp : List FolderMapping) (sd : Bool) (n : FolderNode) :
    applyMappingsToNode mp sd (structuralNode sd (applyMappingsToNode mp sd (structuralNode sd n)))
      = applyMappingsToNode mp sd (structuralNode sd n) := by
  rcases h : List.find? (fun m => m.name == jsTrim n.text) mp with _ | m <;>
    simp [applyMappingsToNode, structuralNode, h]

/-- Function `styledNode` is idempotent. -/
theorem styledNode_idem (s : FolderColorSettings) (n : FolderNode) :
    styledNode s (styledNode s n) = styledNode s n := by
  unfold styledNode
  by_cases h : s.mappings.isEmpty
  · simp [h, structuralNode]
  · simp [h, mapStruct_idem]

/-- Normal form of the DOM effect of one `applyAllStyles` run. -/
theorem applyAllDom_eq (s : FolderColorSettings) (d : Dom) :
    applyAllDom s d =
      { hasWorkspaceRoot := d.hasWorkspaceRoot
        explorers := d.explorers.map (fun e => { e with nodes := e.nodes.map (styledNode s) })
        mainWeightVar := some (toString (s.mainFolderFontWeight.getD 700))
        subWeightVar := some (toString (s.subFolderFontWeight.getD 500)) } := by
  unfold applyAllDom applyMappingsToAllExplorers applyStructuralStyles applyMappingsToDOM
  by_cases h : s.mappings.isEmpty <;>
    simp [h, List.map_map, Function.comp, styledNode]

/-- The DOM effect of `applyAllStyles` is idempotent. -/
theorem applyAllDom_idem (s : FolderColorSettings) (d : Dom) :
    applyAllDom s (applyAllDom s d) = applyAllDom s d := by
  rw [applyAllDom_eq s d, applyAllDom_eq]
  simp [List.map_map, Function.comp, styledNode_idem]

/-! ## Claim C5 -/

/-- Claim C5: for every settings value and every DOM state, calling
`applyAllStyles` twice in succession with unchanged settings and unchanged
tree yields exactly the same attribute state after the second call as
after the first. -/
theorem applyAll_idempotent (st : PluginState) (d : Dom) :
    (applyAllStyles (applyAllStyles st d).1 (applyAllStyles st d).2).2
      = (applyAllStyles st d).2 := by
  show applyAllDom (applyAllStyles st d).1.settings (applyAllDom st.settings d)
        = applyAllDom st.settings d
  rw [applyAllStyles_settings]
  exact applyAllDom_idem st.settings d

/-! ## Claim C8 -/

/-- The identity of a folder node as far as the host is concerned: its
text content and its nesting depth. The plugin must never change these,
nor add, drop or reorder nodes. -/
def nodeIdentity (n : FolderNode) : String × Bool := (n.text, n.isTopLevel)

/-- Claim C8: `applyAllStyles` and `removeStyles` leave the settings
record unchanged and never create, remove or reorder folder nodes: the
per-explorer sequence of node identities (text and nesting depth) is
exactly the same before and after either operation. -/
theorem frame_effects_confined (st : PluginState) (d : Dom) :
    (applyAllStyles st d).1.settings = st.settings ∧
    (removeStyles st d).1.settings = st.settings ∧
    (applyAllStyles st d).2.explorers.map (fun e => e.nodes.map nodeIdentity)
      = d.explorers.map (fun e => e.nodes.map nodeIdentity) ∧
    (removeStyles st d).2.explorers.map (fun e => e.nodes.map nodeIdentity)
      = d.explorers.map (fun e => e.nodes.map nodeIdentity) := by
  refine ⟨applyAllStyles_settings st d, rfl, ?_, ?_⟩
  · show (applyAllDom st.settings d).explorers.map _ = _
    rw [applyAllDom_explorers]
    simp [List.map_map, Function.comp, nodeIdentity, styledNode_text, styledNode_top]
  · simp [removeStyles, List.map_map, Function.comp, nodeIdentity, clearNode]

/-! ## Claim C2 -/

/-- After `removeStyles`, every folder node in the document carries none
of the four node-level attributes the plugin ever sets. -/
theorem removeStyles_clears (st : PluginState) (d : Dom) :
    ((removeStyles st d).2.explorers.all (fun e => e.nodes.all (fun n =>
        !n.dotEnabled && !n.coloredFolder && n.tabColor == none && n.textColor == none)))
      = true := by
  simp [removeStyles, List.all_eq_true, clearNode]

/-- Claim C2 (amended): `applyAllStyles` followed by `removeStyles` leaves
every folder-title node with none of the node-level attributes the plugin
ever sets (dot marker class, colored-folder class, background-color and
text-color properties) and stops all change-notification subscriptions;
the two document-level font-weight variables written by `applyAllStyles`
are, however, not cleared and remain set. -/
theorem applyAll_removeAll_roundTrip (st : PluginState) (d : Dom) :
    (((removeStyles (applyAllStyles st d).1 (applyAllStyles st d).2).2.explorers.all
        (fun e => e.nodes.all (fun n =>
          !n.dotEnabled && !n.coloredFolder && n.tabColor == none && n.textColor == none)))
      = true) ∧
    (removeStyles (applyAllStyles st d).1 (applyAllStyles st d).2).1.workspaceObserver = false ∧
    (removeStyles (applyAllStyles st d).1 (applyAllStyles st d).2).1.explorerObservers = [] ∧
    (removeStyles (applyAllStyles st d).1 (applyAllStyles st d).2).2.mainWeightVar
      = some (toString (st.settings.mainFolderFontWeight.getD 700)) ∧
    (removeStyles (applyAllStyles st d).1 (applyAllStyles st d).2).2.subWeightVar
      = some (toString (st.settings.subFolderFontWeight.getD 500)) := by
  refine ⟨removeStyles_clears _ _, rfl, rfl, ?_, ?_⟩
  · show (applyAllDom st.settings d).mainWeightVar = _
    exact applyAllDom_mainWeightVar st.settings d
  · show (applyAllDom st.settings d).subWeightVar = _
    exact applyAllDom_subWeightVar st.settings d

/-! ## Concrete fixtures used by counterexamples and witnesses -/

/-- The mapping of the dynamic-resync scenario of the spec. -/
def projMapping : FolderMapping :=
  { name := "Projects", color := "#e74c3c", textColor := "#ffffff", useTextColor := some true }

/-- Settings with the single mapping `projMapping`, dot indicator on. -/
def sProjects : FolderColorSettings :=
  { enabled := true, mappings := [projMapping], showDot := true,
    subFolderFontWeight := none, mainFolderFontWeight := none }

/-- A fresh plugin state holding `sProjects` but with `enabled := false`. -/
def stDisabled : PluginState :=
  { settings := { sProjects with enabled := false },
    workspaceObserver := false, explorerObservers := [] }

/-- A fresh plugin state holding `sProjects`. -/
def stProjects : PluginState :=
  { settings := sProjects, workspaceObserver := false, explorerObservers := [] }

/-- A document with one explorer pane holding one clean folder node whose
text is `t`. -/
def domOne (t : String) : Dom :=
  { hasWorkspaceRoot := true
    explorers := [ { hasNavFilesContainer := true, nodes := [mkFolderNode t true] } ]
    mainWeightVar := none
    subWeightVar := none }

/-! ## Claim C1 -/

/-- Claim C1, counterexample: with `enabled = false`, `showDot = true` and
one mapping for "Projects", running `applyAllStyles` on a document with
one clean folder node "Projects" styles the node (dot class, colored
class, both colors), while `removeStyles` leaves it clean — the two end
states of the folder tree differ, so `applyAllStyles` does not behave as
`removeStyles` when `enabled` is false. -/
theorem enabledFalse_apply_ne_remove :
    stDisabled.settings.enabled = false ∧
    (applyAllStyles stDisabled (domOne "Projects")).2.explorers
      ≠ (removeStyles stDisabled (domOne "Projects")).2.explorers := by
  constructor
  · rfl
  · decide

/-- Claim C1 (amended): `applyAllStyles` itself never reads `enabled` —
the styling it produces is the same whatever the flag holds — and the
disabled short-circuit lives in its callers: the enable toggle of the
settings tab (like the toggle command) calls `removeStyles` instead of
`applyAllStyles` when the new value of `enabled` is false, so the
caller-level entry point produces exactly the end state of
`removeStyles`. -/
theorem disabled_shortCircuit_in_caller :
    (∀ (st : PluginState) (d : Dom) (b : Bool),
      (applyAllStyles { st with settings := { st.settings with enabled := b } } d).2
        = (applyAllStyles st d).2) ∧
    (∀ (st : PluginState) (d : Dom),
      enableToggleOnChange false st d
        = removeStyles { st with settings := { st.settings with enabled := false } } d) := by
  constructor
  · intro st d b
    show applyAllDom { st.settings with enabled := b } d = applyAllDom st.settings d
    rcases st with ⟨⟨en, mp, sd, sw, mw⟩, ob, eo⟩
    rfl
  · intro st d
    rfl

/-- Claim C2, counterexample: after `applyAllStyles` followed by
`removeStyles` on a one-node document, the document as a whole still
carries the font-weight variables written by `applyAllStyles` — they are
not among the attributes `removeStyles` clears. -/
theorem roundTrip_leaves_weightVars :
    (removeStyles (applyAllStyles stProjects (domOne "Projects")).1
        (applyAllStyles stProjects (domOne "Projects")).2).2.mainWeightVar = some "700" ∧
    (removeStyles (applyAllStyles stProjects (domOne "Projects")).1
        (applyAllStyles stProjects (domOne "Projects")).2).2.subWeightVar = some "500" := by
  constructor <;> rfl

/-! ## Claim C6 -/

/-- The dot class of a node after one full `applyAllStyles` run: present
exactly when `showDot` is true and moreover the mappings list is empty
(the mapping pass then skips the node) or the trimmed text matches some
mapping (the no-match branch of the mapping pass removes the class). -/
theorem styledNode_dot (s : FolderColorSettings) (n : FolderNode) :
    (styledNode s n).dotEnabled
      = (s.showDot && (s.mappings.isEmpty ||
          (s.mappings.find? (fun m => m.name == jsTrim n.text)).isSome)) := by
  unfold styledNode
  by_cases h : s.mappings.isEmpty
  · simp [h, structuralNode]
  · rcases hf : List.find? (fun m => m.name == jsTrim n.text) s.mappings with _ | m <;>
      simp [applyMappingsToNode, structuralNode, h, hf]

/-- Claim C6, counterexample: with `showDot = true` and a non-empty
mappings list, a folder node whose text matches no mapping ends up with
the dot marker absent after `applyAllStyles` — the dot marker does not
depend on `showDot` alone. -/
theorem dot_not_only_showDot_cex :
    stProjects.settings.showDot = true ∧
    ((applyAllStyles stProjects (domOne "Other")).2.explorers.map
        (fun e => e.nodes.map (fun n => n.dotEnabled))) = [[false]] := by
  constructor
  · rfl
  · decide

/-- Claim C6 (amended): after `applyAllStyles`, a folder node carries the
dot marker exactly when `showDot` is true and, in addition, the mappings
list is empty or the trimmed text of the node matches some mapping; the
no-match branch of the mapping pass removes the dot marker even when
`showDot` is true. -/
theorem dot_marker_rule (st : PluginState) (d : Dom) :
    ((applyAllStyles st d).2.explorers.all (fun e => e.nodes.all (fun n =>
        n.dotEnabled == (st.settings.showDot &&
          (st.settings.mappings.isEmpty ||
            (st.settings.mappings.find? (fun m => m.name == jsTrim n.text)).isSome)))))
      = true := by
  show ((applyAllDom st.settings d).explorers.all _) = true
  rw [applyAllDom_explorers, List.all_eq_true]
  intro e he
  rw [List.mem_map] at he
  obtain ⟨e0, he0, rfl⟩ := he
  rw [List.all_eq_true]
  intro n hn
  simp only [List.mem_map] at hn
  obtain ⟨n0, hn0, rfl⟩ := hn
  simp [styledNode_dot, styledNode_text]

/-! ## Claims C3 and C4 -/

/-- After `applyAllStyles`, the explorer at index `i` still exists and its
node at index `j` is the styled image of the input node at that position. -/
theorem applyAll_get (st : PluginState) (d : Dom) (i j : Nat) (e : Explorer) (n : FolderNode)
    (he : d.explorers.get? i = some e) (hn : e.nodes.get? j = some n) :
    ∃ e2, (applyAllStyles st d).2.explorers.get? i = some e2 ∧
      e2.nodes.get? j = some (styledNode st.settings n) := by
  refine ⟨{ e with nodes := e.nodes.map (styledNode st.settings) }, ?_, ?_⟩
  · show (applyAllDom st.settings d).explorers.get? i = _
    rw [applyAllDom_explorers, List.get?_map, he]
    rfl
  · show (e.nodes.map (styledNode st.settings)).get? j = _
    rw [List.get?_map, hn]
    rfl

/-- Color attributes of a styled node whose trimmed text matched the
mapping `m` found first in the list. -/
theorem styledNode_match (s : FolderColorSettings) (n : FolderNode) (m : FolderMapping)
    (hE : s.mappings.isEmpty = false)
    (hm : s.mappings.find? (fun m0 => m0.name == jsTrim n.text) = some m) :
    (styledNode s n).tabColor = some m.color ∧
    (styledNode s n).coloredFolder = true ∧
    (styledNode s n).textColor
      = (if m.useTextColor = some true then some m.textColor else none) := by
  unfold styledNode
  simp [hE, applyMappingsToNode, structuralNode, hm]

/-- Color attributes of a styled node whose trimmed text matched no
mapping: both colors are cleared. -/
theorem styledNode_nomatch (s : FolderColorSettings) (n : FolderNode)
    (hE : s.mappings.isEmpty = false)
    (hm : s.mappings.find? (fun m0 => m0.name == jsTrim n.text) = none) :
    (styledNode s n).tabColor = none ∧ (styledNode s n).textColor = none ∧
    (styledNode s n).coloredFolder = false := by
  unfold styledNode
  simp [hE, applyMappingsToNode, structuralNode, hm]

/-- Function `find?` returns the element at the first index satisfying the
predicate. -/
theorem find?_eq_of_first {α : Type} (p : α → Bool) :
    ∀ (l : List α) (i : Nat) (a : α), l.get? i = some a → p a = true →
      (∀ k b, k < i → l.get? k = some b → p b = false) → l.find? p = some a
  | [], i, a, h, _, _ => by simp at h
  | x :: l, 0, a, h, hpa, _ => by
      simp only [List.get?] at h
      injection h with h
      subst h
      exact List.find?_cons_of_pos l hpa
  | x :: l, i + 1, a, h, hpa, hmin => by
      have hx : p x = false := hmin 0 x (Nat.succ_pos i) rfl
      rw [List.find?_cons_of_neg l (by simp [hx])]
      exact find?_eq_of_first p l i a h hpa
        (fun k b hk hb => hmin (k + 1) b (Nat.succ_lt_succ hk) hb)

/-- Claim C3: for a non-empty mappings list, after `applyAllStyles` a
folder node whose trimmed text equals the name of the first matching
mapping carries that mapping as background color; its text color equals
the mapping text color when `useTextColor` is true and is cleared
otherwise; a node whose trimmed text matches no mapping has neither color
attribute set. The mapping name is compared untrimmed and
case-sensitively via string equality. -/
theorem applyAll_matching_rule (st : PluginState) (d : Dom)
    (hne : st.settings.mappings ≠ []) (i j : Nat) (e : Explorer) (n : FolderNode)
    (he : d.explorers.get? i = some e) (hn : e.nodes.get? j = some n) :
    ∃ e2 n2, (applyAllStyles st d).2.explorers.get? i = some e2 ∧
      e2.nodes.get? j = some n2 ∧
      (∀ m, st.settings.mappings.find? (fun m0 => m0.name == jsTrim n.text) = some m →
        n2.tabColor = some m.color ∧
        (m.useTextColor = some true → n2.textColor = some m.textColor) ∧
        (¬ m.useTextColor = some true → n2.textColor = none)) ∧
      (st.settings.mappings.find? (fun m0 => m0.name == jsTrim n.text) = none →
        n2.tabColor = none ∧ n2.textColor = none) := by
  have hE : st.settings.mappings.isEmpty = false := by
    cases hmp : st.settings.mappings
    · exact absurd hmp hne
    · rfl
  obtain ⟨e2, he2, hn2⟩ := applyAll_get st d i j e n he hn
  refine ⟨e2, styledNode st.settings n, he2, hn2, ?_, ?_⟩
  · intro m hm
    obtain ⟨h1, _, h3⟩ := styledNode_match st.settings n m hE hm
    refine ⟨h1, ?_, ?_⟩
    · intro hu
      rw [h3, if_pos hu]
    · intro hu
      rw [h3, if_neg hu]
  · intro hm
    obtain ⟨h1, h2, _⟩ := styledNode_nomatch st.settings n hE hm
    exact ⟨h1, h2⟩

/-- Claim C4: when the mappings list holds two entries with the same name
but different colors and a folder node whose trimmed text equals that
name, and the earlier of the two is the first entry of the list matching
the text, then after `applyAllStyles` the node carries the colors of the
earlier entry. -/
theorem applyAll_first_match_wins (st : PluginState) (d : Dom)
    (i j : Nat) (e : Explorer) (n : FolderNode)
    (he : d.explorers.get? i = some e) (hn : e.nodes.get? j = some n)
    (p q : Nat) (m1 m2 : FolderMapping) (hpq : p < q)
    (hp : st.settings.mappings.get? p = some m1)
    (hq : st.settings.mappings.get? q = some m2)
    (hname : m2.name = m1.name) (hcol : m1.color ≠ m2.color)
    (hfirst : ∀ k b, k < p → st.settings.mappings.get? k = some b → b.name ≠ m1.name)
    (htext : jsTrim n.text = m1.name) :
    ∃ e2 n2, (applyAllStyles st d).2.explorers.get? i = some e2 ∧
      e2.nodes.get? j = some n2 ∧
      n2.tabColor = some m1.color ∧ n2.coloredFolder = true ∧
      n2.textColor = (if m1.useTextColor = some true then some m1.textColor else none) := by
  have hE : st.settings.mappings.isEmpty = false := by
    cases hmp : st.settings.mappings
    · rw [hmp] at hp
      simp at hp
    · rfl
  have hfind : st.settings.mappings.find? (fun m0 => m0.name == jsTrim n.text) = some m1 := by
    apply find?_eq_of_first _ _ p m1 hp
    · simp [htext]
    · intro k b hk hb
      have hb2 := hfirst k b hk hb
      simp [htext, hb2]
  obtain ⟨e2, he2, hn2⟩ := applyAll_get st d i j e n he hn
  obtain ⟨h1, h2, h3⟩ := styledNode_match st.settings n m1 hE hfind
  exact ⟨e2, styledNode st.settings n, he2, hn2, h1, h2, h3⟩

/-- Witness for the matching rule, at the whitespace scenario of the
spec: the raw text " Projects " (with surrounding whitespace) is trimmed
and matches the mapping named "Projects". -/
theorem applyAll_matching_rule_witness :
    stProjects.settings.mappings ≠ [] ∧
    (∃ e2 n2, (applyAllStyles stProjects (domOne " Projects ")).2.explorers.get? 0 = some e2 ∧
      e2.nodes.get? 0 = some n2 ∧
      (∀ m, stProjects.settings.mappings.find?
          (fun m0 => m0.name == jsTrim (mkFolderNode " Projects " true).text) = some m →
        n2.tabColor = some m.color ∧
        (m.useTextColor = some true → n2.textColor = some m.textColor) ∧
        (¬ m.useTextColor = some true → n2.textColor = none)) ∧
      (stProjects.settings.mappings.find?
          (fun m0 => m0.name == jsTrim (mkFolderNode " Projects " true).text) = none →
        n2.tabColor = none ∧ n2.textColor = none)) :=
  ⟨by decide,
   applyAll_matching_rule stProjects (domOne " Projects ") (by decide) 0 0
     { hasNavFilesContainer := true, nodes := [mkFolderNode " Projects " true] }
     (mkFolderNode " Projects " true) rfl rfl⟩

/-- First duplicate mapping for the name "A". -/
def dupFirst : FolderMapping :=
  { name := "A", color := "#111111", textColor := "#eeeeee", useTextColor := some true }

/-- Second duplicate mapping for the name "A", with different colors. -/
def dupSecond : FolderMapping :=
  { name := "A", color := "#222222", textColor := "#dddddd", useTextColor := some false }

/-- A plugin state whose mappings list holds the two duplicates. -/
def stDup : PluginState :=
  { settings := { enabled := true, mappings := [dupFirst, dupSecond], showDot := false,
                  subFolderFontWeight := none, mainFolderFontWeight := none },
    workspaceObserver := false, explorerObservers := [] }

/-- Witness for first-match-wins, on a list with two mappings named "A"
with different colors and a node with text "A". -/
theorem applyAll_first_match_wins_witness :
    (0 : Nat) < 1 ∧
    (∃ e2 n2, (applyAllStyles stDup (domOne "A")).2.explorers.get? 0 = some e2 ∧
      e2.nodes.get? 0 = some n2 ∧
      n2.tabColor = some dupFirst.color ∧ n2.coloredFolder = true ∧
      n2.textColor = (if dupFirst.useTextColor = some true
                      then some dupFirst.textColor else none)) :=
  ⟨Nat.zero_lt_one,
   applyAll_first_match_wins stDup (domOne "A") 0 0
     { hasNavFilesContainer := true, nodes := [mkFolderNode "A" true] }
     (mkFolderNode "A" true) rfl rfl 0 1 dupFirst dupSecond Nat.zero_lt_one rfl rfl rfl
     (by decide) (fun k b hk _ => absurd hk (Nat.not_lt_zero k)) (by decide)⟩

/-! ## Claim C7 -/

/-- Claim C7: after `applyAllStyles`, any absent font-weight setting falls
back to the fixed default (700 for the main weight, 500 for the sub
weight), and any present one is rendered as given: the effective weight of
a top-level folder title is the main weight and that of a nested folder
title is the sub weight. -/
theorem font_weight_defaults_and_overrides (st : PluginState) (d : Dom) :
    (st.settings.mainFolderFontWeight = none →
      effectiveWeightVar (applyAllStyles st d).2 true = some "700") ∧
    (st.settings.subFolderFontWeight = none →
      effectiveWeightVar (applyAllStyles st d).2 false = some "500") ∧
    (∀ w : Int, st.settings.mainFolderFontWeight = some w →
      effectiveWeightVar (applyAllStyles st d).2 true = some (toString w)) ∧
    (∀ w : Int, st.settings.subFolderFontWeight = some w →
      effectiveWeightVar (applyAllStyles st d).2 false = some (toString w)) := by
  refine ⟨?_, ?_, ?_, ?_⟩
  · intro h
    show (applyAllDom st.settings d).mainWeightVar = _
    rw [applyAllDom_mainWeightVar, h]
    rfl
  · intro h
    show (applyAllDom st.settings d).subWeightVar = _
    rw [applyAllDom_subWeightVar, h]
    rfl
  · intro w h
    show (applyAllDom st.settings d).mainWeightVar = _
    rw [applyAllDom_mainWeightVar, h]
    rfl
  · intro w h
    show (applyAllDom st.settings d).subWeightVar = _
    rw [applyAllDom_subWeightVar, h]
    rfl

/-- A plugin state with both font weights present (the values of the
font-weight scenario of the spec). -/
def stWeights : PluginState where
  settings := { sProjects with
    mainFolderFontWeight := some 700
    subFolderFontWeight := some 500 }
  workspaceObserver := false
  explorerObservers := []

/-- Witness for the font-weight claim: both the fallback case (no weights
set) and the explicit case (700 and 500 set) evaluated on one-node
documents. -/
theorem font_weight_defaults_and_overrides_witness :
    effectiveWeightVar (applyAllStyles stProjects (domOne "Projects")).2 true = some "700" ∧
    effectiveWeightVar (applyAllStyles stProjects (domOne "Projects")).2 false = some "500" ∧
    effectiveWeightVar (applyAllStyles stWeights (domOne "Projects")).2 true = some "700" ∧
    effectiveWeightVar (applyAllStyles stWeights (domOne "Projects")).2 false = some "500" :=
  ⟨(font_weight_defaults_and_overrides stProjects (domOne "Projects")).1 rfl,
   (font_weight_defaults_and_overrides stProjects (domOne "Projects")).2.1 rfl,
   (font_weight_defaults_and_overrides stWeights (domOne "Projects")).2.2.1 700 rfl,
   (font_weight_defaults_and_overrides stWeights (domOne "Projects")).2.2.2 500 rfl⟩

/-! ## Claim C10 -/

/-- Claim C10: when the mappings list is empty, `applyAllStyles` leaves
the background-color and text-color attributes of every folder node
exactly as they were (the mapping pass returns before touching any node),
so colors applied under a previous non-empty list persist. -/
theorem empty_mappings_colors_persist (st : PluginState) (d : Dom)
    (h : st.settings.mappings = []) :
    (applyAllStyles st d).2.explorers.map
        (fun e => e.nodes.map (fun n => (n.tabColor, n.textColor)))
      = d.explorers.map (fun e => e.nodes.map (fun n => (n.tabColor, n.textColor))) := by
  show (applyAllDom st.settings d).explorers.map _ = _
  rw [applyAllDom_explorers]
  simp [List.map_map, Function.comp, styledNode, h, structuralNode]

/-- A plugin state with an empty mappings list. -/
def stEmpty : PluginState :=
  { settings := { enabled := true, mappings := [], showDot := true,
                  subFolderFontWeight := none, mainFolderFontWeight := none },
    workspaceObserver := false, explorerObservers := [] }

/-- A folder node still carrying colors applied under a previous
non-empty mappings list. -/
def coloredNode : FolderNode :=
  { text := "Design", isTopLevel := true, dotEnabled := true, coloredFolder := true,
    tabColor := some "#3498db", textColor := some "#ffffff" }

/-- A document holding one previously colored folder node. -/
def domColored : Dom :=
  { hasWorkspaceRoot := true
    explorers := [ { hasNavFilesContainer := true, nodes := [coloredNode] } ]
    mainWeightVar := none
    subWeightVar := none }

/-- Witness: with the mappings list deleted, the colors of a previously
colored node survive `applyAllStyles`. -/
theorem empty_mappings_colors_persist_witness :
    (applyAllStyles stEmpty domColored).2.explorers.map
        (fun e => e.nodes.map (fun n => (n.tabColor, n.textColor)))
      = domColored.explorers.map (fun e => e.nodes.map (fun n => (n.tabColor, n.textColor))) :=
  empty_mappings_colors_persist stEmpty domColored rfl

/-! ## Claim C9 -/

/-- Function `observeExplorerContainer` never drops an already observed
container. -/
theorem observe_mono (d : Dom) (st : PluginState) (k i : Nat)
    (h : i ∈ st.explorerObservers) :
    i ∈ (observeExplorerContainer d st k).explorerObservers := by
  unfold observeExplorerContainer
  by_cases h1 : k ∈ st.explorerObservers
  · simpa [h1] using h
  · rcases h2 : d.explorers.get? k with _ | e
    · simpa [h1, h2] using h
    · by_cases h3 : e.hasNavFilesContainer
      · simp [h1, h2, h3, List.mem_append]
        exact Or.inl h
      · simpa [h1, h2, h3] using h

/-- Processing container `i` itself leaves it observed when it holds a
`.nav-files-container`. -/
theorem observe_mem_step (d : Dom) (st : PluginState) (i : Nat) (e : Explorer)
    (he : d.explorers.get? i = some e) (hc : e.hasNavFilesContainer = true) :
    i ∈ (observeExplorerContainer d st i).explorerObservers := by
  unfold observeExplorerContainer
  have he2 : d.explorers[i]? = some e := (List.get?_eq_getElem? _ _).symm.trans he
  by_cases h1 : i ∈ st.explorerObservers
  · simp [h1]
  · simp [h1, he2, hc, List.mem_append]

/-- A fold of `observeExplorerContainer` keeps every observed
container. -/
theorem mem_foldl_observe (d : Dom) :
    ∀ (l : List Nat) (st : PluginState) (i : Nat),
      i ∈ st.explorerObservers →
      i ∈ (l.foldl (observeExplorerContainer d) st).explorerObservers
  | [], _, _, h => h
  | k :: l, st, i, h => mem_foldl_observe d l _ i (observe_mono d st k i h)

/-- A fold of `observeExplorerContainer` observes every processed
container that holds a `.nav-files-container`. -/
theorem foldl_observe_adds (d : Dom) :
    ∀ (l : List Nat) (st : PluginState) (i : Nat) (e : Explorer),
      i ∈ l → d.explorers.get? i = some e → e.hasNavFilesContainer = true →
      i ∈ (l.foldl (observeExplorerContainer d) st).explorerObservers
  | [], _, _, _, h, _, _ => absurd h (List.not_mem_nil _)
  | k :: l, st, i, e, h, he, hc => by
      rcases List.mem_cons.mp h with h | h
      · subst h
        exact mem_foldl_observe d l _ i (observe_mem_step d st i e he hc)
      · exact foldl_observe_adds d l _ i e h he hc

/-- After `setupObserversForExplorers`, every explorer container that
holds a `.nav-files-container` is observed. -/
theorem setup_observes (st : PluginState) (d : Dom) (i : Nat) (e : Explorer)
    (he : d.explorers.get? i = some e) (hc : e.hasNavFilesContainer = true) :
    i ∈ (setupObserversForExplorers st d).explorerObservers := by
  unfold setupObserversForExplorers
  apply foldl_observe_adds d _ _ i e _ he hc
  rw [List.mem_range]
  obtain ⟨hl, -⟩ := List.get?_eq_some.mp he
  exact hl

/-- Claim C9 (amended): after `applyAllStyles` under the mapping
{name "Projects", color "#e74c3c"}, when the host appends a folder node
whose trimmed text is "Projects" to an observed explorer container, the
delivery of the change notification immediately re-runs the mapping pass
on that container — one run per delivered notification, with no
fixed-window coalescing — after which the new node carries background
color #e74c3c without any explicit re-invocation by the caller. -/
theorem dynamic_resync (st : PluginState) (d : Dom) (i : Nat) (e : Explorer) (raw : String)
    (hset : st.settings = sProjects)
    (he : d.explorers.get? i = some e) (hc : e.hasNavFilesContainer = true)
    (htrim : jsTrim raw = "Projects") :
    ∃ e3 last,
      ((notifyExplorer (applyAllStyles st d).1
          (hostAddFolderNode (applyAllStyles st d).2 i (mkFolderNode raw true)) i).1.explorers.get? i
        = some e3) ∧
      e3.nodes.getLast? = some last ∧
      last.tabColor = some "#e74c3c" := by
  have hd1 : (applyAllStyles st d).2.explorers.get? i
      = some { e with nodes := e.nodes.map (styledNode st.settings) } := by
    show (applyAllDom st.settings d).explorers.get? i = _
    rw [applyAllDom_explorers, List.get?_map, he]
    rfl
  have hobs : i ∈ (applyAllStyles st d).1.explorerObservers := by
    show i ∈ (setupObserversForExplorers st (applyAllDom st.settings d)).explorerObservers
    exact setup_observes st _ i _ hd1 hc
  have hlen : i < (applyAllStyles st d).2.explorers.length := by
    obtain ⟨hl, -⟩ := List.get?_eq_some.mp hd1
    exact hl
  have hd2 : (hostAddFolderNode (applyAllStyles st d).2 i (mkFolderNode raw true)).explorers.get? i
      = some { e with nodes := e.nodes.map (styledNode st.settings) ++ [mkFolderNode raw true] } := by
    unfold hostAddFolderNode
    rw [hd1]
    show (((applyAllStyles st d).2.explorers).set i _).get? i = _
    rw [List.get?_set_eq_of_lt _ hlen]
  have hlen2 : i < (hostAddFolderNode (applyAllStyles st d).2 i (mkFolderNode raw true)).explorers.length := by
    obtain ⟨hl, -⟩ := List.get?_eq_some.mp hd2
    exact hl
  have hsettings : (applyAllStyles st d).1.settings = sProjects := by
    rw [applyAllStyles_settings, hset]
  refine ⟨applyMappingsToDOM sProjects
      { e with nodes := e.nodes.map (styledNode st.settings) ++ [mkFolderNode raw true] },
    applyMappingsToNode [projMapping] true (mkFolderNode raw true), ?_, ?_, ?_⟩
  · unfold notifyExplorer
    rw [if_pos hobs, hd2, hsettings]
    show ((hostAddFolderNode (applyAllStyles st d).2 i (mkFolderNode raw true)).explorers.set i _).get? i = _
    rw [List.get?_set_eq_of_lt _ hlen2]
  · show (applyMappingsToDOM sProjects _).nodes.getLast? = _
    unfold applyMappingsToDOM
    rw [if_neg (by decide)]
    show ((e.nodes.map (styledNode st.settings) ++ [mkFolderNode raw true]).map
        (applyMappingsToNode sProjects.mappings sProjects.showDot)).getLast? = _
    rw [List.map_append]
    exact List.getLast?_concat _
  · unfold applyMappingsToNode
    have hfind : List.find? (fun m => m.name == jsTrim (mkFolderNode raw true).text) [projMapping]
        = some projMapping := by
      apply List.find?_cons_of_pos
      show (projMapping.name == jsTrim raw) = true
      rw [htrim]
      decide
    simp [hfind]
    rfl

/-- Witness for the dynamic-resync theorem: one observed explorer that
starts with a node "Other"; the host then appends a node whose raw text
is " Projects ". -/
theorem dynamic_resync_witness :
    ∃ e3 last,
      ((notifyExplorer (applyAllStyles stProjects (domOne "Other")).1
          (hostAddFolderNode (applyAllStyles stProjects (domOne "Other")).2 0
            (mkFolderNode " Projects " true)) 0).1.explorers.get? 0
        = some e3) ∧
      e3.nodes.getLast? = some last ∧
      last.tabColor = some "#e74c3c" :=
  dynamic_resync stProjects (domOne "Other") 0
    { hasNavFilesContainer := true, nodes := [mkFolderNode "Other" true] }
    " Projects " rfl rfl rfl (by decide)

/-- A plugin state whose explorer container 0 is already observed. -/
def stObserved : PluginState :=
  { settings := sProjects, workspaceObserver := true, explorerObservers := [0] }

/-- Claim C9, counterexample: a burst of two change notifications for an
observed container triggers two immediate mapping-pass runs, not a single
coalesced one — the callback registered at main.ts line 200 runs
`applyMappingsToDOM` directly, with no debounce window. -/
theorem burst_not_coalesced_cex :
    (deliverBurst stObserved 0 (domOne "Projects") 2).2 = 2 ∧
    ¬ (deliverBurst stObserved 0 (domOne "Projects") 2).2 = 1 := by
  constructor
  · decide
  · decide

end FolderColor
